import Mathlib

/-! Shallow embedding of the Spotify-playlist data-processing pipeline
(`src/data_processor.py`, `src/excel_processor.py`) and proofs about its
specification.  Python dictionaries of track data are modelled as records
of optional `Value`s (a key read with `dict.get(k, d)` yields the default
`d` exactly when the key is absent); Python's dynamically-typed values are
modelled by the inductive type `Value`, with floats represented as exact
rationals.
-/

/-- A Python value as it occurs in the track / playlist dictionaries:
a string, an int, a float (modelled as an exact rational), a bool,
a list of strings, or `None`.  The only list-valued field the program
reads is `artists`, which both acquisition sources populate with
strings, so lists are modelled as lists of strings. -/
inductive Value where
  | str (s : String)
  | int (n : Int)
  | float (q : Rat)
  | bool (b : Bool)
  | strlist (ss : List String)
  | none
deriving DecidableEq, Repr

/-- Python truthiness (`bool(v)`): empty string / zero / `False` /
empty list / `None` are falsy, everything else truthy. -/
def Value.truthy : Value → Bool
  | .str s => !s.data.isEmpty
  | .int n => n != 0
  | .float q => q != 0
  | .bool b => b
  | .strlist ss => !ss.isEmpty
  | .none => false

/-- A track dictionary.  It covers every key read or written by
`data_processor.py` / `excel_processor.py`: the raw-shape keys
(`name`, `duration_formatted`, `added_at`), the canonical-shape keys
(`track_name`, `duration`, `date_added`) and the keys shared by both
shapes.  A field is `Option.none` exactly when the key is absent from
the dictionary. -/
structure Track where
  name : Option Value := Option.none
  duration_formatted : Option Value := Option.none
  added_at : Option Value := Option.none
  track_name : Option Value := Option.none
  duration : Option Value := Option.none
  date_added : Option Value := Option.none
  artists : Option Value := Option.none
  album_name : Option Value := Option.none
  duration_ms : Option Value := Option.none
  release_year : Option Value := Option.none
  popularity : Option Value := Option.none
  explicit : Option Value := Option.none
  streams : Option Value := Option.none
  track_number : Option Value := Option.none
  danceability : Option Value := Option.none
  energy : Option Value := Option.none
  valence : Option Value := Option.none
  tempo : Option Value := Option.none
  acousticness : Option Value := Option.none
  instrumentalness : Option Value := Option.none
  liveness : Option Value := Option.none
  speechiness : Option Value := Option.none
  loudness : Option Value := Option.none
  key : Option Value := Option.none
  mode : Option Value := Option.none
  time_signature : Option Value := Option.none
deriving DecidableEq, Repr

/-- The empty dictionary: a raw track record with every field absent. -/
def Track.empty : Track := {}

/-- The playlist summary dictionary, with the keys read by
`create_csv` and the spreadsheet exporter. -/
structure Playlist where
  name : Option Value := Option.none
  description : Option Value := Option.none
  followers : Option Value := Option.none
  total_tracks : Option Value := Option.none
  total_duration : Option Value := Option.none
  external_url : Option Value := Option.none
deriving DecidableEq, Repr

/-- Decimal digit character. -/
def digitChar (n : Nat) : Char := Char.ofNat (48 + n)

/-- Decimal digits of a natural number, most significant first
(fuel-based so that it is structurally recursive and kernel-reducible). -/
def natDigitsAux : Nat → Nat → List Char → List Char
  | 0, _, acc => acc
  | fuel+1, n, acc =>
    if n < 10 then digitChar n :: acc
    else natDigitsAux fuel (n / 10) (digitChar (n % 10) :: acc)

/-- Decimal representation of a natural number (Python `str(n)`). -/
def natToStr (n : Nat) : String := String.mk (natDigitsAux (n+1) n [])

/-- Decimal representation of an integer (Python `str(i)`). -/
def intToStr (i : Int) : String :=
  if i < 0 then "-" ++ natToStr i.natAbs else natToStr i.toNat

/-- Decimal representation of a rational.  This stands in for Python's
`str(float)`; no theorem in this file depends on its exact text. -/
def ratToStr (q : Rat) : String :=
  intToStr q.num ++ (if q.den = 1 then "" else "/" ++ natToStr q.den)

/-- Python `str(v)`.  Lists are shown without their brackets; no theorem
in this file depends on the text produced for lists or floats. -/
def pyStr : Value → String
  | .str s => s
  | .int n => intToStr n
  | .float q => ratToStr q
  | .bool b => if b then "True" else "False"
  | .strlist ss => "[" ++ natToStr ss.length ++ " items]"
  | .none => "None"

/-- Join a list of strings with a separator (Python `sep.join(list)` on
a list whose items are all strings). -/
def joinList (sep : String) : List String → String
  | [] => ""
  | [x] => x
  | x :: y :: xs => x ++ sep ++ joinList sep (y :: xs)

/-- Python `', '.join(v)`.  A string is itself iterable, so joining a
string joins its one-character substrings; joining anything that is not
a string or a list of strings raises `TypeError`, modelled as
`Except.error`. -/
def pyJoinVal (v : Value) : Except Unit String :=
  match v with
  | .str s => .ok (joinList ", " (s.data.map (fun c => String.mk [c])))
  | .strlist ss => .ok (joinList ", " ss)
  | _ => .error ()

/-- Python `s.replace('Z', '+00:00')`: every occurrence of the
one-character pattern is replaced. -/
def replaceZ : List Char → List Char
  | [] => []
  | c :: rest =>
    if c = 'Z' then '+' :: '0' :: '0' :: ':' :: '0' :: '0' :: replaceZ rest
    else c :: replaceZ rest

/-- Python `s.split(sep)` for a one-character separator. -/
def splitOnChar (sep : Char) : List Char → List (List Char)
  | [] => [[]]
  | c :: rest =>
    if c = sep then [] :: splitOnChar sep rest
    else
      match splitOnChar sep rest with
      | [] => [[c]]
      | g :: gs => (c :: g) :: gs

/-- Numeric value of a list of decimal digit characters. -/
def digitsToNat (l : List Char) : Nat :=
  l.foldl (fun a c => a * 10 + (c.toNat - 48)) 0

/-- All characters are decimal digits. -/
def allDigits (l : List Char) : Bool := l.all Char.isDigit

/-- Gregorian leap year, as the `datetime` module computes it. -/
def isLeap (y : Nat) : Bool := (y % 4 = 0 && y % 100 != 0) || y % 400 = 0

/-- Number of days in a month. -/
def daysInMonth (y m : Nat) : Nat :=
  if m = 2 then (if isLeap y then 29 else 28)
  else if m = 4 || m = 6 || m = 9 || m = 11 then 30
  else 31

/-- Validity of a year-month-day triple as checked by the `datetime(y,m,d)`
constructor (`MINYEAR = 1`, `MAXYEAR = 9999`). -/
def validYMD (y m d : Nat) : Bool :=
  1 ≤ y && y ≤ 9999 && 1 ≤ m && m ≤ 12 && 1 ≤ d && d ≤ daysInMonth y m

/-- A `strptime` numeric field of at most two digits (`%m` / `%d` match
one or two digits whose value lies in the field's range, leading zero
allowed). -/
def compOK (l : List Char) (mx : Nat) : Bool :=
  (l.length = 1 || l.length = 2) && allDigits l &&
    1 ≤ digitsToNat l && digitsToNat l ≤ mx

/-- Model of `datetime.strptime(s, '%Y-%m-%d')` followed by the `datetime`
constructor's validity check: exactly three dash-separated fields, a
four-digit year, a one-or-two-digit month and day, and a valid calendar
date. -/
def parse_Ymd (s : String) : Option (Nat × Nat × Nat) :=
  match splitOnChar '-' s.data with
  | [ys, ms, ds] =>
    if ys.length = 4 && allDigits ys && compOK ms 12 && compOK ds 31 then
      let y := digitsToNat ys
      let m := digitsToNat ms
      let d := digitsToNat ds
      if validYMD y m d then Option.some (y, m, d) else Option.none
    else Option.none
  | _ => Option.none

/-- Model of `datetime.strptime(s, '%m/%d/%Y')` with the constructor's validity
check. -/
def parse_mdY (s : String) : Option (Nat × Nat × Nat) :=
  match splitOnChar '/' s.data with
  | [ms, ds, ys] =>
    if ys.length = 4 && allDigits ys && compOK ms 12 && compOK ds 31 then
      let y := digitsToNat ys
      let m := digitsToNat ms
      let d := digitsToNat ds
      if validYMD y m d then Option.some (y, m, d) else Option.none
    else Option.none
  | _ => Option.none

/-- Model of `datetime.strptime(s, '%d/%m/%Y')` with the constructor's validity
check. -/
def parse_dmY (s : String) : Option (Nat × Nat × Nat) :=
  match splitOnChar '/' s.data with
  | [ds, ms, ys] =>
    if ys.length = 4 && allDigits ys && compOK ms 12 && compOK ds 31 then
      let y := digitsToNat ys
      let m := digitsToNat ms
      let d := digitsToNat ds
      if validYMD y m d then Option.some (y, m, d) else Option.none
    else Option.none
  | _ => Option.none

/-- CPython's `_parse_isoformat_date` on the first ten characters:
`YYYY-MM-DD` with two-digit month and day, then the constructor's
validity check. -/
def parseIsoDate (l : List Char) : Option (Nat × Nat × Nat) :=
  match l with
  | [y1, y2, y3, y4, s1, m1, m2, s2, d1, d2] =>
    if s1 = '-' && s2 = '-' && allDigits [y1, y2, y3, y4] &&
        allDigits [m1, m2] && allDigits [d1, d2] then
      let y := digitsToNat [y1, y2, y3, y4]
      let m := digitsToNat [m1, m2]
      let d := digitsToNat [d1, d2]
      if validYMD y m d then Option.some (y, m, d) else Option.none
    else Option.none
  | _ => Option.none

/-- CPython's `_parse_hh_mm_ss_ff`: `HH[:MM[:SS[.fff[fff]]]]`, each
component exactly two digits, the fraction three or six digits. -/
def parseHMSF (l : List Char) : Option (Nat × Nat × Nat) :=
  match l with
  | a :: b :: rest =>
    if a.isDigit && b.isDigit then
      let hh := digitsToNat [a, b]
      match rest with
      | [] => Option.some (hh, 0, 0)
      | c1 :: c :: d :: rest2 =>
        if c1 = ':' && c.isDigit && d.isDigit then
          let mm := digitsToNat [c, d]
          match rest2 with
          | [] => Option.some (hh, mm, 0)
          | e1 :: e :: f :: rest3 =>
            if e1 = ':' && e.isDigit && f.isDigit then
              let ss := digitsToNat [e, f]
              match rest3 with
              | [] => Option.some (hh, mm, ss)
              | g :: frac =>
                if g = '.' && (frac.length = 3 || frac.length = 6) &&
                    allDigits frac then
                  Option.some (hh, mm, ss)
                else Option.none
            else Option.none
          | _ => Option.none
        else Option.none
      | _ => Option.none
    else Option.none
  | _ => Option.none

/-- Index of the first occurrence of a character, if any. -/
def findCharIdx (l : List Char) (c : Char) : Option Nat :=
  l.findIdx? (fun x => x = c)

/-- CPython 3.10's `_parse_isoformat_time` plus the range checks done by
the `datetime`/`timezone` constructors: the time components, an optional
UTC offset introduced by the first `-` (else the first `+`) whose text
is 5, 8 or 15 characters long and whose magnitude is below 24 hours. -/
def parseIsoTime (l : List Char) : Bool :=
  if l.length < 2 then false
  else
    let split : List Char × Option (List Char) :=
      match findCharIdx l '-' with
      | Option.some i => (l.take i, Option.some (l.drop (i+1)))
      | Option.none =>
        match findCharIdx l '+' with
        | Option.some i => (l.take i, Option.some (l.drop (i+1)))
        | Option.none => (l, Option.none)
    match parseHMSF split.1 with
    | Option.none => false
    | Option.some (h, m, s) =>
      if h ≤ 23 && m ≤ 59 && s ≤ 59 then
        match split.2 with
        | Option.none => true
        | Option.some tzstr =>
          if tzstr.length = 5 || tzstr.length = 8 || tzstr.length = 15 then
            match parseHMSF tzstr with
            | Option.some (th, tm, ts) => th * 3600 + tm * 60 + ts < 86400
            | Option.none => false
          else false
      else false

/-- CPython's `datetime.fromisoformat` (the `_datetime` C accelerator
the interpreter actually runs) restricted to the fields the program
uses: the date components of the parsed value, or `Option.none` when
parsing raises.  The date part is the first ten characters; a string of
exactly ten characters is a bare date; when anything follows, the
eleventh character (the separator) is skipped unexamined and the rest
must be a valid non-empty time — in particular a valid date followed by
a lone separator, as in "2023-05-12T", raises `ValueError`. -/
def fromisoformatL (l : List Char) : Option (Nat × Nat × Nat) :=
  match parseIsoDate (l.take 10) with
  | Option.none => Option.none
  | Option.some ymd =>
    if l.length = 10 then Option.some ymd
    else if parseIsoTime (l.drop 11) then Option.some ymd
    else Option.none

/-- Zero-padded two-digit decimal (as `strftime('%m')` / `'%d'`). -/
def pad2 (n : Nat) : List Char := [digitChar (n / 10 % 10), digitChar (n % 10)]

/-- Zero-padded four-digit decimal (as `strftime('%Y')`). -/
def pad4 (n : Nat) : List Char :=
  [digitChar (n / 1000 % 10), digitChar (n / 100 % 10),
   digitChar (n / 10 % 10), digitChar (n % 10)]

/-- Model of `dt.strftime('%Y-%m-%d')`. -/
def fmtYMD (y m d : Nat) : String :=
  String.mk (pad4 y ++ '-' :: pad2 m ++ '-' :: pad2 d)

/-- Model of `DataProcessor._format_date`: empty string gives `"Unknown"`; a
string containing `'T'` goes through `fromisoformat` after replacing
every `'Z'` with `"+00:00"` (a parse failure is caught and the input is
returned unchanged); otherwise the three `strptime` patterns are tried
in order, and if none parses the input is returned unchanged. -/
def format_date (date_string : String) : String :=
  if date_string = "" then "Unknown"
  else if date_string.data.contains 'T' then
    match fromisoformatL (replaceZ date_string.data) with
    | Option.some (y, m, d) => fmtYMD y m d
    | Option.none => date_string
  else
    match parse_Ymd date_string with
    | Option.some (y, m, d) => fmtYMD y m d
    | Option.none =>
      match parse_mdY date_string with
      | Option.some (y, m, d) => fmtYMD y m d
      | Option.none =>
        match parse_dmY date_string with
        | Option.some (y, m, d) => fmtYMD y m d
        | Option.none => date_string

/-- Model of `self._format_date(v)` on an arbitrary value: a string goes through
`format_date`; a falsy non-string yields `"Unknown"` (the `if not
date_string` branch); a truthy non-string raises inside the `try` block
(`'T' in v` or `v.replace`/`strptime`) and the blanket `except` returns
the value unchanged. -/
def formatDateValue : Value → Value
  | .str s => .str (format_date s)
  | v => if v.truthy then v else .str "Unknown"

/-- Model of `DataProcessor._standardize_track`: builds the canonical record by
presence-or-default lookup on each raw key.  The only statement that can
raise is `', '.join(track.get('artists', ['Unknown Artist']))`, modelled
by `pyJoinVal`; the error propagates to the caller. -/
def _standardize_track (track : Track) : Except Unit Track :=
  match pyJoinVal (track.artists.getD (.strlist ["Unknown Artist"])) with
  | .error e => .error e
  | .ok artists_str =>
    .ok {
      name := Option.none
      duration_formatted := Option.none
      added_at := Option.none
      track_name := Option.some (track.name.getD (.str "Unknown"))
      artists := Option.some (.str artists_str)
      album_name := Option.some (track.album_name.getD (.str "Unknown Album"))
      duration := Option.some (track.duration_formatted.getD (.str "0:00"))
      duration_ms := Option.some (track.duration_ms.getD (.int 0))
      date_added := Option.some (formatDateValue (track.added_at.getD (.str "")))
      release_year := Option.some (track.release_year.getD (.str "Unknown"))
      popularity := Option.some (track.popularity.getD (.int 0))
      explicit := Option.some (track.explicit.getD (.bool false))
      streams := Option.some (track.streams.getD (.str "N/A"))
      track_number := Option.some (track.track_number.getD (.int 0))
      danceability := Option.some (track.danceability.getD (.str "N/A"))
      energy := Option.some (track.energy.getD (.str "N/A"))
      valence := Option.some (track.valence.getD (.str "N/A"))
      tempo := Option.some (track.tempo.getD (.str "N/A"))
      acousticness := Option.some (track.acousticness.getD (.str "N/A"))
      instrumentalness := Option.some (track.instrumentalness.getD (.str "N/A"))
      liveness := Option.some (track.liveness.getD (.str "N/A"))
      speechiness := Option.some (track.speechiness.getD (.str "N/A"))
      loudness := Option.some (track.loudness.getD (.str "N/A"))
      key := Option.some (track.key.getD (.str "N/A"))
      mode := Option.some (track.mode.getD (.str "N/A"))
      time_signature := Option.some (track.time_signature.getD (.str "N/A")) }

/-- Model of `DataProcessor.process_tracks`: standardizes each track inside a
`try`, appending the result on success and skipping the track (after a
logged warning, not modelled) when `_standardize_track` raises.  The
`playlist_data` argument is never used in the body. -/
def process_tracks (tracks_data : List Track) (playlist_data : Playlist) :
    List Track :=
  match tracks_data with
  | [] => []
  | t :: ts =>
    match _standardize_track t with
    | .ok p => p :: process_tracks ts playlist_data
    | .error _ => process_tracks ts playlist_data

/-- Numeric coercion used by Python's `sum`: ints count as themselves and
bools as 0/1 (`bool` is a subclass of `int`); any other value raises
`TypeError`, modelled as `Except.error`.  Float operands, which none of
the program's inputs carry for `duration_ms` or `popularity` (both are
integers per the data model), are modelled as unsupported. -/
def pyNum : Value → Except Unit Int
  | .int n => .ok n
  | .bool b => .ok (if b then 1 else 0)
  | _ => .error ()

/-- Python `sum` over a list of values, propagating the `TypeError` of a
non-numeric element. -/
def pySumInt : List Value → Except Unit Int
  | [] => .ok 0
  | v :: vs =>
    match pyNum v, pySumInt vs with
    | .ok n, .ok s => .ok (n + s)
    | _, _ => .error ()

/-- The hours/minutes/seconds formatting of `calculate_total_duration`:
`total_ms // 1000` whole seconds (Python floor division and modulo,
i.e. `Int.fdiv` / `Int.fmod`), then the first matching branch of
hours > 0 / minutes > 0 / seconds. -/
def fmtHMS (total_ms : Int) : String :=
  let total_seconds := Int.fdiv total_ms 1000
  let hours := Int.fdiv total_seconds 3600
  let minutes := Int.fdiv (Int.fmod total_seconds 3600) 60
  let seconds := Int.fmod total_seconds 60
  if hours > 0 then
    intToStr hours ++ "h " ++ intToStr minutes ++ "m " ++ intToStr seconds ++ "s"
  else if minutes > 0 then
    intToStr minutes ++ "m " ++ intToStr seconds ++ "s"
  else
    intToStr seconds ++ "s"

/-- Model of `DataProcessor.calculate_total_duration`:
`sum(track.get('duration_ms', 0) for track in tracks_data)` followed by
`fmtHMS`; a non-numeric `duration_ms` raises out of the function. -/
def calculate_total_duration (tracks_data : List Track) : Except Unit String :=
  match pySumInt (tracks_data.map (fun t => t.duration_ms.getD (.int 0))) with
  | .error e => .error e
  | .ok total_ms => .ok (fmtHMS total_ms)

/-- The dictionary returned by `DataProcessor.get_data_summary`. -/
structure Summary where
  playlist_name : Value
  total_tracks_extracted : Nat
  total_duration : String
  avg_popularity : Rat
  explicit_tracks : Nat
  tracks_with_release_year : Nat
  tracks_with_audio_features : Nat
deriving DecidableEq, Repr

/-- Model of `DataProcessor.get_data_summary`: each entry as computed by the code;
`tracks_with_release_year` counts tracks whose `release_year` value is
truthy (the key looked up with a `None` default) and
`tracks_with_audio_features` counts tracks whose `danceability` value
`is not None`.  A non-numeric `duration_ms` or `popularity` raises out
of the function. -/
def get_data_summary (playlist_data : Playlist) (tracks_data : List Track) :
    Except Unit Summary :=
  match calculate_total_duration tracks_data,
      pySumInt (tracks_data.map (fun t => t.popularity.getD (.int 0))) with
  | .ok td, .ok pops =>
    .ok {
      playlist_name := playlist_data.name.getD (.str "Unknown")
      total_tracks_extracted := tracks_data.length
      total_duration := td
      avg_popularity :=
        if tracks_data.isEmpty then 0
        else (pops : Rat) / (tracks_data.length : Rat)
      explicit_tracks :=
        (tracks_data.filter (fun t => (t.explicit.getD (.bool false)).truthy)).length
      tracks_with_release_year :=
        (tracks_data.filter (fun t => (t.release_year.getD Value.none).truthy)).length
      tracks_with_audio_features :=
        (tracks_data.filter
          (fun t => decide (t.danceability.getD Value.none ≠ Value.none))).length }
  | _, _ => .error ()

/-- The `Name` metadata line written by `DataProcessor.create_csv`
(without the trailing newline): `f"Name,{playlist_data.get('name',
'Unknown Playlist')}"`, with no quoting of the interpolated value. -/
def name_line (playlist_data : Playlist) : String :=
  "Name," ++ pyStr (playlist_data.name.getD (.str "Unknown Playlist"))

/-- The `Description` metadata line written by `DataProcessor.create_csv`
(without the trailing newline): the interpolated value is wrapped in one
pair of double quotes, with no doubling of embedded quotes. -/
def description_line (playlist_data : Playlist) : String :=
  "Description,\"" ++ pyStr (playlist_data.description.getD (.str "")) ++ "\""

/-- The metadata header block of `DataProcessor.create_csv`, one entry
per written line (trailing newlines dropped); `now` stands for
`datetime.now().strftime('%Y-%m-%d %H:%M:%S')`. -/
def metadata_block (playlist_data : Playlist) (tracks_data : List Track)
    (now : String) : List String :=
  [ "PLAYLIST METADATA",
    name_line playlist_data,
    description_line playlist_data,
    "Total Saves/Followers," ++ pyStr (playlist_data.followers.getD (.int 0)),
    "Number of Songs," ++
      pyStr (playlist_data.total_tracks.getD (.int tracks_data.length)),
    "Total Duration," ++ pyStr (playlist_data.total_duration.getD (.str "Unknown")),
    "URL," ++ pyStr (playlist_data.external_url.getD (.str "")),
    "Extracted on," ++ now,
    "" ]

/-- Reader state of the delimited-text record reader: outside any
quoted region, inside one, or inside one having just read a quote
character (which closes the region unless doubled). -/
inductive CsvMode where
  | plain
  | quoted
  | quote2

/-- A standard delimited-text (RFC-4180-style) record reader for one
line, as the spec's round-trip property demands: fields are separated by
commas, a field may be wrapped in double quotes, inside which commas are
literal and a doubled quote denotes one literal quote character.
`acc` holds the current field's characters in reverse. -/
def parseRec : List Char → CsvMode → List Char → List String
  | [], _, acc => [String.mk acc.reverse]
  | c :: rest, .plain, acc =>
    if c = ',' then String.mk acc.reverse :: parseRec rest .plain []
    else if c = '"' then parseRec rest .quoted acc
    else parseRec rest .plain (c :: acc)
  | c :: rest, .quoted, acc =>
    if c = '"' then parseRec rest .quote2 acc
    else parseRec rest .quoted (c :: acc)
  | c :: rest, .quote2, acc =>
    if c = '"' then parseRec rest .quoted ('"' :: acc)
    else if c = ',' then String.mk acc.reverse :: parseRec rest .plain []
    else parseRec rest .plain (c :: acc)

/-- Parse one delimited-text line into its fields. -/
def parseCSVRecord (s : String) : List String := parseRec s.data .plain []

/-- Round-half-to-even of a rational to an integer (the rounding rule of
Python's `round`). -/
def roundHalfEven (x : Rat) : Int :=
  if x - (⌊x⌋ : Rat) < 1/2 then ⌊x⌋
  else if x - (⌊x⌋ : Rat) > 1/2 then ⌊x⌋ + 1
  else if ⌊x⌋ % 2 = 0 then ⌊x⌋ else ⌊x⌋ + 1

/-- Python `round(q, 3)` on an exact rational: round-half-to-even at the third
decimal.  (Python rounds binary floats; on the exact decimal values the
program handles this coincides with rounding the rational.) -/
def round3 (q : Rat) : Rat := (roundHalfEven (q * 1000) : Rat) / 1000

/-- Model of `ExcelProcessor._format_feature` (and the identical
`DataProcessor._format_audio_feature`): `None` or the literal string
`'N/A'` give `'N/A'`; ints and bools pass through `round(v, 3)`
unchanged (a bool becomes its int); floats are rounded to three
decimals; anything else is converted with `str`. -/
def _format_feature (value : Value) : Value :=
  if value = Value.none ∨ value = Value.str "N/A" then Value.str "N/A"
  else
    match value with
    | .int n => .int n
    | .bool b => .int (if b then 1 else 0)
    | .float q => .float (round3 q)
    | v => .str (pyStr v)

/-- The per-track test of `_create_audio_features_sheet`:
`track.get('danceability') not in [None, 'N/A']`. -/
def realAudio (t : Track) : Bool :=
  let d := t.danceability.getD Value.none
  decide (d ≠ Value.none) && decide (d ≠ Value.str "N/A")

/-- The 14 header titles of the Audio Features sheet. -/
def audioHeaders : List String :=
  ["Track #", "Track Name", "Danceability", "Energy", "Valence", "Tempo",
   "Acousticness", "Instrumentalness", "Liveness", "Speechiness",
   "Loudness", "Key", "Mode", "Time Signature"]

/-- The header cells of the Audio Features sheet: row 1, columns 1-14. -/
def audioHeaderCells : List (Nat × Nat × Value) :=
  audioHeaders.enum.map (fun p => (1, p.1 + 1, Value.str p.2))

/-- One data row of the Audio Features sheet (`row` is the worksheet row,
starting at 2; the first cell holds `row - 1`). -/
def audioDataRow (row : Nat) (t : Track) : List (Nat × Nat × Value) :=
  [ (row, 1, Value.int ((row : Int) - 1)),
    (row, 2, t.track_name.getD (Value.str "Unknown")),
    (row, 3, _format_feature (t.danceability.getD Value.none)),
    (row, 4, _format_feature (t.energy.getD Value.none)),
    (row, 5, _format_feature (t.valence.getD Value.none)),
    (row, 6, _format_feature (t.tempo.getD Value.none)),
    (row, 7, _format_feature (t.acousticness.getD Value.none)),
    (row, 8, _format_feature (t.instrumentalness.getD Value.none)),
    (row, 9, _format_feature (t.liveness.getD Value.none)),
    (row, 10, _format_feature (t.speechiness.getD Value.none)),
    (row, 11, _format_feature (t.loudness.getD Value.none)),
    (row, 12, _format_feature (t.key.getD Value.none)),
    (row, 13, _format_feature (t.mode.getD Value.none)),
    (row, 14, _format_feature (t.time_signature.getD Value.none)) ]

/-- All data cells of the Audio Features sheet: one 14-cell row per
track, rows numbered from 2 in input order. -/
def audioDataCells (tracks_data : List Track) : List (Nat × Nat × Value) :=
  (tracks_data.enum.map (fun p => audioDataRow (p.1 + 2) p.2)).flatten

/-- The two cells written when no track has a real danceability value. -/
def audioWarningCells : List (Nat × Nat × Value) :=
  [ (1, 1, Value.str "Audio Features Not Available"),
    (3, 1, Value.str
      "Audio features require extended API permissions or may not be available for all tracks.") ]

/-- Model of `ExcelProcessor._create_audio_features_sheet`, abstracted to the list
of `(row, column, value)` cell writes it performs (styling ignored):
if no track satisfies `realAudio`, only the warning title and note are
written; otherwise the 14 header cells and one 14-cell data row per
track. -/
def _create_audio_features_sheet (tracks_data : List Track) :
    List (Nat × Nat × Value) :=
  if tracks_data.any realAudio then
    audioHeaderCells ++ audioDataCells tracks_data
  else audioWarningCells

/-- The canonical record produced by normalizing the empty raw record:
every field carries its default. -/
def canonicalOfEmpty : Track :=
  { track_name := Option.some (Value.str "Unknown")
    duration := Option.some (Value.str "0:00")
    date_added := Option.some (Value.str "Unknown")
    artists := Option.some (Value.str "Unknown Artist")
    album_name := Option.some (Value.str "Unknown Album")
    duration_ms := Option.some (Value.int 0)
    release_year := Option.some (Value.str "Unknown")
    popularity := Option.some (Value.int 0)
    explicit := Option.some (Value.bool false)
    streams := Option.some (Value.str "N/A")
    track_number := Option.some (Value.int 0)
    danceability := Option.some (Value.str "N/A")
    energy := Option.some (Value.str "N/A")
    valence := Option.some (Value.str "N/A")
    tempo := Option.some (Value.str "N/A")
    acousticness := Option.some (Value.str "N/A")
    instrumentalness := Option.some (Value.str "N/A")
    liveness := Option.some (Value.str "N/A")
    speechiness := Option.some (Value.str "N/A")
    loudness := Option.some (Value.str "N/A")
    key := Option.some (Value.str "N/A")
    mode := Option.some (Value.str "N/A")
    time_signature := Option.some (Value.str "N/A") }

/-- The record produced by normalizing `canonicalOfEmpty` again: the
artists string has been re-joined character by character; the other
fields happen to agree because the defaults of the renamed keys
coincide with the values being replaced. -/
def canonicalOfEmptyTwice : Track :=
  { canonicalOfEmpty with
    artists := Option.some (Value.str "U, n, k, n, o, w, n,  , A, r, t, i, s, t") }

/-- The summary record of the empty track sequence. -/
def summaryOfEmpty : Summary :=
  { playlist_name := Value.str "Unknown"
    total_tracks_extracted := 0
    total_duration := "0s"
    avg_popularity := 0
    explicit_tracks := 0
    tracks_with_release_year := 0
    tracks_with_audio_features := 0 }

/-- A raw track record whose only field is a danceability value with
four decimal places. -/
def rawUnroundedTrack : Track :=
  { danceability := Option.some (Value.float ((1234 : Rat) / 10000)) }

/-- The spec's reading of the duration formatter, written from §4.2's
words over natural numbers: whole seconds, then hours / minutes /
seconds, first matching branch wins. -/
def durationText (totalMs : Nat) : String :=
  let ts := totalMs / 1000
  let h := ts / 3600
  let m := ts % 3600 / 60
  let s := ts % 60
  if h > 0 then natToStr h ++ "h " ++ natToStr m ++ "m " ++ natToStr s ++ "s"
  else if m > 0 then natToStr m ++ "m " ++ natToStr s ++ "s"
  else natToStr s ++ "s"

/-- The count the spec asks for in the Derived Statistics Record: tracks
whose `release_year` is not the `"Unknown"` default. -/
def knownYearCount (tracks_data : List Track) : Nat :=
  (tracks_data.filter
    (fun t => decide (t.release_year ≠ Option.some (Value.str "Unknown")))).length

/-- The count the spec asks for: tracks whose danceability holds a real
value, neither null nor the `"N/A"` default. -/
def realAudioCount (tracks_data : List Track) : Nat :=
  (tracks_data.filter realAudio).length

/-- No raw field that the normalizer reads is present with a null value
(the raw record may still be missing any subset of fields). -/
def rawNoNulls (t : Track) : Prop :=
  t.name ≠ Option.some Value.none ∧
  t.artists ≠ Option.some Value.none ∧
  t.album_name ≠ Option.some Value.none ∧
  t.duration_formatted ≠ Option.some Value.none ∧
  t.duration_ms ≠ Option.some Value.none ∧
  t.added_at ≠ Option.some Value.none ∧
  t.release_year ≠ Option.some Value.none ∧
  t.popularity ≠ Option.some Value.none ∧
  t.explicit ≠ Option.some Value.none ∧
  t.streams ≠ Option.some Value.none ∧
  t.track_number ≠ Option.some Value.none ∧
  t.danceability ≠ Option.some Value.none ∧
  t.energy ≠ Option.some Value.none ∧
  t.valence ≠ Option.some Value.none ∧
  t.tempo ≠ Option.some Value.none ∧
  t.acousticness ≠ Option.some Value.none ∧
  t.instrumentalness ≠ Option.some Value.none ∧
  t.liveness ≠ Option.some Value.none ∧
  t.speechiness ≠ Option.some Value.none ∧
  t.loudness ≠ Option.some Value.none ∧
  t.key ≠ Option.some Value.none ∧
  t.mode ≠ Option.some Value.none ∧
  t.time_signature ≠ Option.some Value.none

/-- Every one of the canonical record's 23 fields is present and holds a
non-null value. -/
def canonNoNulls (c : Track) : Prop :=
  (c.track_name.isSome ∧ c.track_name ≠ Option.some Value.none) ∧
  (c.artists.isSome ∧ c.artists ≠ Option.some Value.none) ∧
  (c.album_name.isSome ∧ c.album_name ≠ Option.some Value.none) ∧
  (c.duration.isSome ∧ c.duration ≠ Option.some Value.none) ∧
  (c.duration_ms.isSome ∧ c.duration_ms ≠ Option.some Value.none) ∧
  (c.date_added.isSome ∧ c.date_added ≠ Option.some Value.none) ∧
  (c.release_year.isSome ∧ c.release_year ≠ Option.some Value.none) ∧
  (c.popularity.isSome ∧ c.popularity ≠ Option.some Value.none) ∧
  (c.explicit.isSome ∧ c.explicit ≠ Option.some Value.none) ∧
  (c.streams.isSome ∧ c.streams ≠ Option.some Value.none) ∧
  (c.track_number.isSome ∧ c.track_number ≠ Option.some Value.none) ∧
  (c.danceability.isSome ∧ c.danceability ≠ Option.some Value.none) ∧
  (c.energy.isSome ∧ c.energy ≠ Option.some Value.none) ∧
  (c.valence.isSome ∧ c.valence ≠ Option.some Value.none) ∧
  (c.tempo.isSome ∧ c.tempo ≠ Option.some Value.none) ∧
  (c.acousticness.isSome ∧ c.acousticness ≠ Option.some Value.none) ∧
  (c.instrumentalness.isSome ∧ c.instrumentalness ≠ Option.some Value.none) ∧
  (c.liveness.isSome ∧ c.liveness ≠ Option.some Value.none) ∧
  (c.speechiness.isSome ∧ c.speechiness ≠ Option.some Value.none) ∧
  (c.loudness.isSome ∧ c.loudness ≠ Option.some Value.none) ∧
  (c.key.isSome ∧ c.key ≠ Option.some Value.none) ∧
  (c.mode.isSome ∧ c.mode ≠ Option.some Value.none) ∧
  (c.time_signature.isSome ∧ c.time_signature ≠ Option.some Value.none)

/-! Helper lemmas -/

/-- Unfolding lemma: `process_tracks` is `filterMap` of the standardizer's successes. -/
theorem process_tracks_eq_filterMap (tracks_data : List Track)
    (playlist_data : Playlist) :
    process_tracks tracks_data playlist_data =
      tracks_data.filterMap (fun t => (_standardize_track t).toOption) := by
  induction tracks_data with
  | nil => rfl
  | cons t ts ih =>
    cases h : _standardize_track t <;>
      simp [process_tracks, h, List.filterMap_cons, Except.toOption, ih]

/-- Summing the embedding of a list of integers succeeds and gives the
list's sum. -/
theorem pySumInt_ints (ns : List Int) :
    pySumInt (ns.map Value.int) = .ok ns.sum := by
  induction ns with
  | nil => rfl
  | cons n ns ih => simp [pySumInt, pyNum, ih]

/-- Floor division of natural-number casts agrees with `Nat` division. -/
theorem fdiv_natCast (m k : Nat) :
    Int.fdiv (m : Int) (k : Int) = ((m / k : Nat) : Int) :=
  (Int.ofNat_fdiv m k).symm

/-- Floor modulo of natural-number casts agrees with `Nat` modulo. -/
theorem fmod_natCast (m k : Nat) :
    Int.fmod (m : Int) (k : Int) = ((m % k : Nat) : Int) :=
  (Int.ofNat_fmod m k).symm

/-- The length of a `filterMap` is the number of elements on which the
function succeeds. -/
theorem length_filterMap_eq_length_filter {α β : Type} (l : List α)
    (f : α → Option β) :
    (l.filterMap f).length = (l.filter (fun a => (f a).isSome)).length := by
  induction l with
  | nil => rfl
  | cons a l ih =>
    cases h : f a <;> simp [List.filterMap_cons, List.filter_cons, h, ih]

/-- Casting lemma: `intToStr` on a natural-number cast is `natToStr`. -/
theorem intToStr_natCast (n : Nat) : intToStr (n : Int) = natToStr n := by
  simp [intToStr, Int.not_lt.mpr (Int.natCast_nonneg n)]

/-- The duration formatter on a nonnegative total agrees with the
spec's natural-number formula. -/
theorem fmtHMS_eq_durationText (n : Nat) : fmtHMS (n : Int) = durationText n := by
  have h1000 : ((1000 : Int)) = ((1000 : Nat) : Int) := rfl
  have h3600 : ((3600 : Int)) = ((3600 : Nat) : Int) := rfl
  have h60 : ((60 : Int)) = ((60 : Nat) : Int) := rfl
  simp only [fmtHMS, durationText, h1000, h3600, h60, fdiv_natCast, fmod_natCast,
    intToStr_natCast, Int.natCast_pos, gt_iff_lt]

/-! Claim theorems -/

/-- Claim C10: the canonical output of `process_tracks` does not depend
on its `playlist_data` argument: any two playlist summary records give
the same result on the same raw track sequence. -/
theorem C10_process_tracks_playlist_independent (tracks_data : List Track)
    (p1 p2 : Playlist) :
    process_tracks tracks_data p1 = process_tracks tracks_data p2 := by
  induction tracks_data with
  | nil => rfl
  | cons t ts ih =>
    cases h : _standardize_track t <;> simp [process_tracks, h, ih]

/-- Claim C6: `process_tracks` never raises (it is a total function of
its inputs); a track on which `_standardize_track` faults is skipped and
the remaining tracks are still processed, so the result is exactly one
canonical record per non-faulting raw track, in input order — that is,
the `filterMap` of the standardizer's successes — and its length is the
number of non-faulting tracks. -/
theorem C6_process_tracks_skips_faulting (tracks_data : List Track)
    (playlist_data : Playlist) :
    process_tracks tracks_data playlist_data =
      tracks_data.filterMap (fun t => (_standardize_track t).toOption) ∧
    (process_tracks tracks_data playlist_data).length =
      (tracks_data.filter (fun t => (_standardize_track t).toOption.isSome)).length := by
  refine ⟨process_tracks_eq_filterMap tracks_data playlist_data, ?_⟩
  rw [process_tracks_eq_filterMap tracks_data playlist_data]
  exact length_filterMap_eq_length_filter tracks_data
    (fun t => (_standardize_track t).toOption)

/-- Claim C3: the total duration is the sum of `duration_ms` over the
sequence (absent treated as 0, via the summed `getD`), converted to
whole seconds and formatted by the first matching branch of
hours/minutes/seconds; in particular 0 ms gives "0s", 65,000 ms gives
"1m 5s", 3,665,000 ms gives "1h 1m 5s", and the empty sequence gives
"0s". -/
theorem C3_total_duration (tracks_data : List Track) (total : Nat)
    (h : pySumInt (tracks_data.map (fun t => t.duration_ms.getD (.int 0))) =
      .ok (total : Int)) :
    calculate_total_duration tracks_data = .ok (durationText total) ∧
    fmtHMS 0 = "0s" ∧ fmtHMS 65000 = "1m 5s" ∧ fmtHMS 3665000 = "1h 1m 5s" ∧
    calculate_total_duration [] = .ok "0s" := by
  refine ⟨?_, rfl, rfl, rfl, rfl⟩
  rw [calculate_total_duration, h]
  exact congrArg Except.ok (fmtHMS_eq_durationText total)

/-- Witness for C3 at a concrete two-track sequence totalling 65 s. -/
theorem C3_total_duration_witness :
    calculate_total_duration
      [{ duration_ms := Option.some (Value.int 60000) },
       { duration_ms := Option.some (Value.int 5000) }] = .ok "1m 5s" :=
  (C3_total_duration
    [{ duration_ms := Option.some (Value.int 60000) },
     { duration_ms := Option.some (Value.int 5000) }] 65000 rfl).1.trans rfl

/-- Claim C9: for a non-empty track sequence the summary's average
popularity is the arithmetic mean of the tracks' popularity values
(absent popularity contributing 0 through the summed `getD`), and for
the empty sequence it is exactly 0; the last conjunct ties the summed
value to the plain sum of integer popularity values. -/
theorem C9_avg_popularity (playlist_data : Playlist) (tracks_data : List Track)
    (s : Summary) (pops : Int)
    (h : get_data_summary playlist_data tracks_data = .ok s)
    (hp : pySumInt (tracks_data.map (fun t => t.popularity.getD (.int 0))) =
      .ok pops) :
    (tracks_data = [] → s.avg_popularity = 0) ∧
    (tracks_data ≠ [] →
      s.avg_popularity = (pops : Rat) / (tracks_data.length : Rat)) ∧
    (∀ ns : List Int,
      tracks_data.map (fun t => t.popularity.getD (.int 0)) = ns.map Value.int →
      pops = ns.sum) := by
  cases hc : calculate_total_duration tracks_data with
  | error e =>
    unfold get_data_summary at h
    rw [hc, hp] at h
    simp at h
  | ok td =>
    unfold get_data_summary at h
    rw [hc, hp] at h
    simp only [Except.ok.injEq] at h
    subst h
    refine ⟨fun he => ?_, fun hne => ?_, fun ns hmap => ?_⟩
    · subst he; rfl
    · have : tracks_data.isEmpty = false := by
        cases tracks_data with
        | nil => exact absurd rfl hne
        | cons a l => rfl
      simp [this]
    · rw [hmap, pySumInt_ints] at hp
      exact (Except.ok.injEq _ _ ▸ hp).symm

/-- Witness for C9 at the empty sequence. -/
theorem C9_avg_popularity_witness : summaryOfEmpty.avg_popularity = 0 :=
  (C9_avg_popularity {} [] summaryOfEmpty 0 rfl rfl).1 rfl

/-- Claim C7 (amended): the summary's `tracks_with_release_year` counts
the tracks whose `release_year` value is truthy — which includes the
canonical `"Unknown"` default — and `tracks_with_audio_features` counts
the tracks whose danceability is not null — which includes the
canonical `"N/A"` default; `explicit_tracks` counts truthy `explicit`
values. -/
theorem C7_summary_counts (playlist_data : Playlist) (tracks_data : List Track)
    (s : Summary)
    (h : get_data_summary playlist_data tracks_data = .ok s) :
    s.tracks_with_release_year =
      (tracks_data.filter (fun t => (t.release_year.getD Value.none).truthy)).length ∧
    s.tracks_with_audio_features =
      (tracks_data.filter
        (fun t => decide (t.danceability.getD Value.none ≠ Value.none))).length ∧
    s.explicit_tracks =
      (tracks_data.filter (fun t => (t.explicit.getD (.bool false)).truthy)).length := by
  cases hc : calculate_total_duration tracks_data with
  | error e =>
    unfold get_data_summary at h
    rw [hc] at h
    cases hp : pySumInt (tracks_data.map (fun t => t.popularity.getD (.int 0))) with
    | error e2 => rw [hp] at h; simp at h
    | ok pops => rw [hp] at h; simp at h
  | ok td =>
    cases hp : pySumInt (tracks_data.map (fun t => t.popularity.getD (.int 0))) with
    | error e2 =>
      unfold get_data_summary at h
      rw [hc, hp] at h
      simp at h
    | ok pops =>
      unfold get_data_summary at h
      rw [hc, hp] at h
      simp only [Except.ok.injEq] at h
      subst h
      exact ⟨rfl, rfl, rfl⟩

/-- Witness for C7's amended statement at the empty sequence. -/
theorem C7_summary_counts_witness :
    summaryOfEmpty.tracks_with_release_year = 0 ∧
    summaryOfEmpty.tracks_with_audio_features = 0 :=
  ⟨(C7_summary_counts {} [] summaryOfEmpty rfl).1,
   (C7_summary_counts {} [] summaryOfEmpty rfl).2.1⟩

/-- Counterexample for C7 as stated: on the canonical record produced
from the empty raw track, whose `release_year` is the `"Unknown"`
default and whose danceability is the `"N/A"` default, the code reports
both counts as 1 while the spec's counts of known release years and
real audio-feature values are 0. -/
theorem C7_counterexample_defaults_counted :
    (get_data_summary {} [canonicalOfEmpty]).toOption.map
      (fun s => (s.tracks_with_release_year, s.tracks_with_audio_features)) =
      Option.some (1, 1) ∧
    knownYearCount [canonicalOfEmpty] = 0 ∧
    realAudioCount [canonicalOfEmpty] = 0 :=
  ⟨rfl, rfl, rfl⟩

/-- A present-or-default lookup is non-null when the stored value is not
null and the default is not null. -/
theorem getD_ne_none (o : Option Value) (d : Value)
    (ho : o ≠ Option.some Value.none) (hd : d ≠ Value.none) :
    o.getD d ≠ Value.none := by
  cases o with
  | none => simpa [Option.getD] using hd
  | some v =>
    simp only [Option.getD]
    intro hv
    exact ho (by rw [hv])

/-- Date formatting never returns null on a non-null input. -/
theorem formatDateValue_ne_none (v : Value) (hv : v ≠ Value.none) :
    formatDateValue v ≠ Value.none := by
  cases v with
  | str s => simp [formatDateValue]
  | none => exact absurd rfl hv
  | int n => simp only [formatDateValue]; split <;> simp
  | float q => simp only [formatDateValue]; split <;> simp
  | bool b => simp only [formatDateValue]; split <;> simp
  | strlist ss => simp only [formatDateValue]; split <;> simp

/-- Claim C1 (amended): normalization always yields a record with all 23
canonical fields present; each field is the raw value when the raw key
is present and the exact §3 default when it is absent (the equations
below state both at once through `getD`); audio-feature values pass
through unchanged — rounding to three decimals happens only at export —
and when no present raw field is null, no canonical field is null. -/
theorem C1_standardize_defaults (t c : Track)
    (h : _standardize_track t = .ok c) :
    c.track_name = Option.some (t.name.getD (.str "Unknown")) ∧
    c.album_name = Option.some (t.album_name.getD (.str "Unknown Album")) ∧
    c.duration = Option.some (t.duration_formatted.getD (.str "0:00")) ∧
    c.duration_ms = Option.some (t.duration_ms.getD (.int 0)) ∧
    c.date_added = Option.some (formatDateValue (t.added_at.getD (.str ""))) ∧
    c.release_year = Option.some (t.release_year.getD (.str "Unknown")) ∧
    c.popularity = Option.some (t.popularity.getD (.int 0)) ∧
    c.explicit = Option.some (t.explicit.getD (.bool false)) ∧
    c.streams = Option.some (t.streams.getD (.str "N/A")) ∧
    c.track_number = Option.some (t.track_number.getD (.int 0)) ∧
    c.danceability = Option.some (t.danceability.getD (.str "N/A")) ∧
    c.energy = Option.some (t.energy.getD (.str "N/A")) ∧
    c.valence = Option.some (t.valence.getD (.str "N/A")) ∧
    c.tempo = Option.some (t.tempo.getD (.str "N/A")) ∧
    c.acousticness = Option.some (t.acousticness.getD (.str "N/A")) ∧
    c.instrumentalness = Option.some (t.instrumentalness.getD (.str "N/A")) ∧
    c.liveness = Option.some (t.liveness.getD (.str "N/A")) ∧
    c.speechiness = Option.some (t.speechiness.getD (.str "N/A")) ∧
    c.loudness = Option.some (t.loudness.getD (.str "N/A")) ∧
    c.key = Option.some (t.key.getD (.str "N/A")) ∧
    c.mode = Option.some (t.mode.getD (.str "N/A")) ∧
    c.time_signature = Option.some (t.time_signature.getD (.str "N/A")) ∧
    (t.artists = Option.none →
      c.artists = Option.some (Value.str "Unknown Artist")) ∧
    (rawNoNulls t → canonNoNulls c) := by
  cases hj : pyJoinVal (t.artists.getD (.strlist ["Unknown Artist"])) with
  | error e =>
    unfold _standardize_track at h
    rw [hj] at h
    simp at h
  | ok a =>
    unfold _standardize_track at h
    rw [hj] at h
    simp only [Except.ok.injEq] at h
    subst h
    refine ⟨rfl, rfl, rfl, rfl, rfl, rfl, rfl, rfl, rfl, rfl, rfl, rfl, rfl,
      rfl, rfl, rfl, rfl, rfl, rfl, rfl, rfl, rfl, ?_, ?_⟩
    · intro ha
      rw [ha] at hj
      simp only [Option.getD, pyJoinVal, joinList, Except.ok.injEq] at hj
      simp [← hj]
    · intro hn
      obtain ⟨n1, n2, n3, n4, n5, n6, n7, n8, n9, n10, n11, n12, n13, n14,
        n15, n16, n17, n18, n19, n20, n21, n22, n23⟩ := hn
      unfold canonNoNulls
      simp only [Option.isSome_some, ne_eq, Option.some.injEq, true_and]
      refine ⟨?_, by simp, ?_, ?_, ?_, ?_, ?_, ?_, ?_, ?_, ?_, ?_, ?_, ?_,
        ?_, ?_, ?_, ?_, ?_, ?_, ?_, ?_, ?_⟩
      · exact getD_ne_none _ _ n1 (by simp)
      · exact getD_ne_none _ _ n3 (by simp)
      · exact getD_ne_none _ _ n4 (by simp)
      · exact getD_ne_none _ _ n5 (by simp)
      · exact formatDateValue_ne_none _ (getD_ne_none _ _ n6 (by simp))
      · exact getD_ne_none _ _ n7 (by simp)
      · exact getD_ne_none _ _ n8 (by simp)
      · exact getD_ne_none _ _ n9 (by simp)
      · exact getD_ne_none _ _ n10 (by simp)
      · exact getD_ne_none _ _ n11 (by simp)
      · exact getD_ne_none _ _ n12 (by simp)
      · exact getD_ne_none _ _ n13 (by simp)
      · exact getD_ne_none _ _ n14 (by simp)
      · exact getD_ne_none _ _ n15 (by simp)
      · exact getD_ne_none _ _ n16 (by simp)
      · exact getD_ne_none _ _ n17 (by simp)
      · exact getD_ne_none _ _ n18 (by simp)
      · exact getD_ne_none _ _ n19 (by simp)
      · exact getD_ne_none _ _ n20 (by simp)
      · exact getD_ne_none _ _ n21 (by simp)
      · exact getD_ne_none _ _ n22 (by simp)
      · exact getD_ne_none _ _ n23 (by simp)

/-- Witness for C1 at the empty raw record: no present field is null and
the produced canonical record has all fields present and non-null. -/
theorem C1_standardize_defaults_witness :
    rawNoNulls Track.empty ∧ canonNoNulls canonicalOfEmpty :=
  ⟨by unfold rawNoNulls; simp [Track.empty],
   (C1_standardize_defaults Track.empty canonicalOfEmpty rfl).2.2.2.2.2.2.2.2.2.2.2.2.2.2.2.2.2.2.2.2.2.2.2
     (by unfold rawNoNulls; simp [Track.empty])⟩

/-- Counterexample for C1 as stated: a raw danceability of 0.1234 passes
through normalization unchanged — the canonical value is neither
rounded to three decimals (rounding it would change it) nor "N/A". -/
theorem C1_counterexample_unrounded :
    (_standardize_track rawUnroundedTrack).toOption.map (fun c => c.danceability) =
      Option.some (Option.some (Value.float ((1234 : Rat) / 10000))) ∧
    round3 ((1234 : Rat) / 10000) ≠ (1234 : Rat) / 10000 ∧
    Value.float ((1234 : Rat) / 10000) ≠ Value.str "N/A" := by
  refine ⟨rfl, ?_, by simp⟩
  simp only [round3, roundHalfEven]
  norm_num

/-- Claim C4 (amended): re-normalizing an already-canonical record is
not stable.  The fields whose raw and canonical key names coincide
(album_name, duration_ms, release_year, popularity, explicit, streams,
track_number and the twelve audio features) are preserved, but
track_name, duration and date_added are reset to their defaults because
the canonical record does not carry the raw keys `name`,
`duration_formatted` and `added_at`, and the artists string is re-joined
character by character. -/
theorem C4_restandardize (t c c2 : Track)
    (h1 : _standardize_track t = .ok c)
    (h2 : _standardize_track c = .ok c2) :
    c2.album_name = c.album_name ∧
    c2.duration_ms = c.duration_ms ∧
    c2.release_year = c.release_year ∧
    c2.popularity = c.popularity ∧
    c2.explicit = c.explicit ∧
    c2.streams = c.streams ∧
    c2.track_number = c.track_number ∧
    c2.danceability = c.danceability ∧
    c2.energy = c.energy ∧
    c2.valence = c.valence ∧
    c2.tempo = c.tempo ∧
    c2.acousticness = c.acousticness ∧
    c2.instrumentalness = c.instrumentalness ∧
    c2.liveness = c.liveness ∧
    c2.speechiness = c.speechiness ∧
    c2.loudness = c.loudness ∧
    c2.key = c.key ∧
    c2.mode = c.mode ∧
    c2.time_signature = c.time_signature ∧
    c2.track_name = Option.some (Value.str "Unknown") ∧
    c2.duration = Option.some (Value.str "0:00") ∧
    c2.date_added = Option.some (Value.str "Unknown") ∧
    (∀ s : String, c.artists = Option.some (Value.str s) →
      c2.artists = Option.some (Value.str
        (joinList ", " (s.data.map (fun ch => String.mk [ch]))))) := by
  cases hj1 : pyJoinVal (t.artists.getD (.strlist ["Unknown Artist"])) with
  | error e =>
    unfold _standardize_track at h1
    rw [hj1] at h1
    simp at h1
  | ok a =>
    unfold _standardize_track at h1
    rw [hj1] at h1
    simp only [Except.ok.injEq] at h1
    subst h1
    unfold _standardize_track at h2
    simp only [Option.getD_some, pyJoinVal, Except.ok.injEq] at h2
    subst h2
    refine ⟨rfl, rfl, rfl, rfl, rfl, rfl, rfl, rfl, rfl, rfl, rfl, rfl, rfl,
      rfl, rfl, rfl, rfl, rfl, rfl, rfl, rfl, rfl, ?_⟩
    intro s hs
    simp only [Option.some.injEq, Value.str.injEq] at hs
    subst hs
    rfl

/-- Witness for C4's amended statement on the canonical record of the
empty raw track and its re-normalization. -/
theorem C4_restandardize_witness :
    canonicalOfEmptyTwice.album_name = canonicalOfEmpty.album_name :=
  (C4_restandardize Track.empty canonicalOfEmpty canonicalOfEmptyTwice rfl rfl).1

/-- Counterexample for C4 as stated: re-normalizing the canonical record
of the empty raw track changes its artists field (the already-joined
string "Unknown Artist" is re-joined character by character), so
normalization is not idempotent. -/
theorem C4_counterexample_not_idempotent :
    ((_standardize_track Track.empty).bind _standardize_track).toOption.map
      (fun c => c.artists) ≠
    (_standardize_track Track.empty).toOption.map (fun c => c.artists) := by
  decide

/-- Each audio-feature data row holds exactly 14 cells, so the data
block holds 14 cells per enumerated track. -/
theorem audioRows_length (l : List (Nat × Track)) :
    ((l.map (fun p => audioDataRow (p.1 + 2) p.2)).flatten).length =
      14 * l.length := by
  induction l with
  | nil => rfl
  | cons p l ih =>
    simp only [List.map_cons, List.flatten_cons, List.length_append, ih,
      List.length_cons]
    have : (audioDataRow (p.1 + 2) p.2).length = 14 := rfl
    rw [this]
    ring

/-- The data block of the Audio Features sheet holds 14 cells (one row)
per input track. -/
theorem audioDataCells_length (tracks_data : List Track) :
    (audioDataCells tracks_data).length = 14 * tracks_data.length := by
  rw [audioDataCells, audioRows_length, List.enum_length]

/-- Claim C8: when no track carries a real (non-null, non-"N/A")
danceability value, the Audio Features sheet consists of exactly the
warning title and the explanatory note — no header cells and no data
rows; when at least one track does, the sheet is the 14 header cells
followed by exactly one 14-cell data row per input track. -/
theorem C8_audio_features_sheet (tracks_data : List Track) :
    (tracks_data.any realAudio = false →
      _create_audio_features_sheet tracks_data = audioWarningCells) ∧
    (tracks_data.any realAudio = true →
      _create_audio_features_sheet tracks_data =
        audioHeaderCells ++ audioDataCells tracks_data ∧
      audioHeaderCells.length = 14 ∧
      (audioDataCells tracks_data).length = 14 * tracks_data.length) := by
  constructor
  · intro hno
    rw [_create_audio_features_sheet, hno]
    rfl
  · intro hyes
    rw [_create_audio_features_sheet, hyes]
    exact ⟨rfl, rfl, audioDataCells_length tracks_data⟩

/-- Witness for C8: the empty sequence gets the warning-only sheet, and
a one-track sequence with a real danceability value gets the header and
exactly one data row (14 cells). -/
theorem C8_audio_features_sheet_witness :
    _create_audio_features_sheet [] = audioWarningCells ∧
    (audioDataCells [{ danceability := Option.some (Value.int 1) }]).length =
      14 * 1 :=
  ⟨(C8_audio_features_sheet []).1 rfl,
   ((C8_audio_features_sheet
      [{ danceability := Option.some (Value.int 1) }]).2 rfl).2.2⟩

/-- Claim C2: date normalization behaves as specified — the empty string
gives "Unknown"; a string containing a literal 'T' goes through the
ISO-8601 parser after the trailing-Z-to-UTC rewrite and is reformatted
to YYYY-MM-DD, falling back to the unchanged input when the parse
fails; any other string is tried against the patterns YYYY-MM-DD,
MM/DD/YYYY, DD/MM/YYYY in that order and passed through unchanged when
none parses; the four concrete examples hold; and a valid date followed
by a lone separator, which `fromisoformat` rejects, passes through
unchanged. -/
theorem C2_format_date :
    format_date "" = "Unknown" ∧
    format_date "2023-05-12T10:00:00Z" = "2023-05-12" ∧
    format_date "05/12/2023" = "2023-05-12" ∧
    format_date "not-a-date" = "not-a-date" ∧
    format_date "2023-05-12T" = "2023-05-12T" ∧
    (∀ s : String, s ≠ "" → s.data.contains 'T' = true →
      format_date s = (match fromisoformatL (replaceZ s.data) with
        | Option.some (y, m, d) => fmtYMD y m d
        | Option.none => s)) ∧
    (∀ s : String, s ≠ "" → s.data.contains 'T' = false →
      format_date s = (match parse_Ymd s with
        | Option.some (y, m, d) => fmtYMD y m d
        | Option.none => (match parse_mdY s with
          | Option.some (y, m, d) => fmtYMD y m d
          | Option.none => (match parse_dmY s with
            | Option.some (y, m, d) => fmtYMD y m d
            | Option.none => s)))) := by
  refine ⟨by decide, by decide, by decide, by decide, by decide, ?_, ?_⟩
  · intro s h1 h2
    rw [format_date, if_neg h1, if_pos h2]
  · intro s h1 h2
    rw [format_date, if_neg h1, if_neg (by rw [h2]; exact Bool.false_ne_true)]

/-- Witness for C2's universally quantified clauses: an ISO timestamp
without a Z suffix and a day-first slashed date. -/
theorem C2_format_date_witness :
    format_date "1999-12-31T23:59:59" = "1999-12-31" ∧
    format_date "31/05/2023" = "2023-05-31" := by
  constructor
  · exact (C2_format_date.2.2.2.2.2.1 "1999-12-31T23:59:59" (by decide)
      (by decide)).trans (by decide)
  · exact (C2_format_date.2.2.2.2.2.2 "31/05/2023" (by decide)
      (by decide)).trans (by decide)

/-- Reading an unquoted tail without delimiter or quote characters
yields a single field made of the accumulator and that tail. -/
theorem parseRec_no_special (l : List Char) (acc : List Char)
    (h : ∀ c ∈ l, c ≠ ',' ∧ c ≠ '"') :
    parseRec l CsvMode.plain acc = [String.mk (acc.reverse ++ l)] := by
  induction l generalizing acc with
  | nil => simp [parseRec]
  | cons c rest ih =>
    have hc := h c (List.mem_cons_self c rest)
    simp only [parseRec]
    rw [if_neg hc.1, if_neg hc.2,
      ih (c :: acc) (fun x hx => h x (List.mem_cons_of_mem c hx))]
    simp [List.reverse_cons, List.append_assoc]

/-- Reading a quoted region without quote characters up to its closing
quote at the end of the line yields a single field made of the
accumulator and the region. -/
theorem parseRec_quoted (l : List Char) (acc : List Char)
    (h : ∀ c ∈ l, c ≠ '"') :
    parseRec (l ++ ['"']) CsvMode.quoted acc = [String.mk (acc.reverse ++ l)] := by
  induction l generalizing acc with
  | nil => simp [parseRec]
  | cons c rest ih =>
    have hc := h c (List.mem_cons_self c rest)
    simp only [List.cons_append, parseRec]
    rw [if_neg hc, List.append_eq,
      ih (c :: acc) (fun x hx => h x (List.mem_cons_of_mem c hx))]
    simp [List.reverse_cons, List.append_assoc]

/-- Claim C5 (amended): `create_csv` does not apply the standard
delimited-text quoting rule to the metadata header — the playlist name
is interpolated raw and the description is wrapped in one pair of
quotes without doubling embedded quotes — so the round-trip holds
exactly when the name contains no delimiter, quote or newline and the
description contains no quote or newline (a comma in the description is
fine thanks to the wrapping quotes). -/
theorem C5_metadata_roundtrip (p : Playlist) (nm desc : String)
    (hn : p.name = Option.some (Value.str nm))
    (hd : p.description = Option.some (Value.str desc))
    (h1 : ∀ c ∈ nm.data, c ≠ ',' ∧ c ≠ '"' ∧ c ≠ '\n')
    (h2 : ∀ c ∈ desc.data, c ≠ '"' ∧ c ≠ '\n') :
    parseCSVRecord (name_line p) = ["Name", nm] ∧
    parseCSVRecord (description_line p) = ["Description", desc] := by
  have hname : name_line p = "Name," ++ nm := by rw [name_line, hn]; rfl
  have hdesc : description_line p = "Description,\"" ++ desc ++ "\"" := by
    rw [description_line, hd]; rfl
  constructor
  · rw [hname]
    show parseRec ("Name," ++ nm).data CsvMode.plain [] = ["Name", nm]
    rw [show parseRec ("Name," ++ nm).data CsvMode.plain [] =
      "Name" :: parseRec nm.data CsvMode.plain [] from rfl]
    rw [parseRec_no_special nm.data []
      (fun c hc => ⟨(h1 c hc).1, (h1 c hc).2.1⟩)]
    rfl
  · rw [hdesc]
    show parseRec ("Description,\"" ++ desc ++ "\"").data CsvMode.plain [] =
      ["Description", desc]
    rw [show parseRec ("Description,\"" ++ desc ++ "\"").data CsvMode.plain [] =
      "Description" :: parseRec (desc.data ++ ['"']) CsvMode.quoted [] from rfl]
    rw [parseRec_quoted desc.data [] (fun c hc => (h2 c hc).1)]
    rfl

/-- Witness for C5's amended statement: a name without special
characters and a description containing a comma both round-trip. -/
theorem C5_metadata_roundtrip_witness :
    parseCSVRecord (name_line
      { name := Option.some (Value.str "My Playlist"),
        description := Option.some (Value.str "songs, for driving") }) =
      ["Name", "My Playlist"] ∧
    parseCSVRecord (description_line
      { name := Option.some (Value.str "My Playlist"),
        description := Option.some (Value.str "songs, for driving") }) =
      ["Description", "songs, for driving"] :=
  C5_metadata_roundtrip
    { name := Option.some (Value.str "My Playlist"),
      description := Option.some (Value.str "songs, for driving") }
    "My Playlist" "songs, for driving" rfl rfl (by decide) (by decide)

/-- Counterexample for C5 as stated: a playlist name containing the
delimiter is written unquoted, so a standard reader splits it into two
fields and does not recover the original name. -/
theorem C5_counterexample_comma_in_name :
    parseCSVRecord (name_line { name := Option.some (Value.str "A,B") }) =
      ["Name", "A", "B"] ∧
    (["Name", "A", "B"] : List String) ≠ ["Name", "A,B"] :=
  ⟨by decide, by decide⟩
